import Mathlib

/-!
Shallow embedding of `hues.py` (`cycle_hues`): a single function that validates
its inputs, decodes a PNG, converts it once to an 8-bit HSV array, produces
`num_frames` hue-shifted copies, converts each back to RGB, and saves them as a
looping GIF.

External collaborators (PIL decode/encode, RGB↔HSV conversion, the filesystem)
are modelled as parameters of an `Env` record; the arithmetic of the hue shift
and the numpy uint8 channel update are embedded exactly.
-/

namespace Hues

/-- One pixel of the 8-bit HSV array (`np.array(hsv_img, dtype=np.uint8)`):
three channels, each a byte value in `[0, 256)`. -/
structure PixelHSV where
  h : Nat
  s : Nat
  v : Nat
deriving DecidableEq

/-- One pixel of an RGB frame produced by `convert('RGB')`. -/
structure PixelRGB where
  r : Nat
  g : Nat
  b : Nat
deriving DecidableEq

/-- A 2-D pixel array, row-major, as numpy exposes `hsv_array[row][col]`. -/
abbrev ImageHSV := List (List PixelHSV)

/-- A 2-D RGB pixel array. -/
abbrev ImageRGB := List (List PixelRGB)

/-- Line 49: `hue_shift = (255 * i // num_frames) % 255`, Python integer
division followed by the modulo. -/
def hue_shift (num_frames i : Nat) : Nat :=
  (255 * i / num_frames) % 255

/-- numpy uint8 addition of the scalar `sh` to a channel value: the sum wraps
modulo 2^8 because the array dtype is `uint8`. -/
def u8add (x sh : Nat) : Nat :=
  (x + sh) % 256

/-- Lines 46-50: `frame_array = hsv_array.copy()` followed by
`frame_array[:, :, 0] = (frame_array[:, :, 0] + hue_shift) % 255`.
The hue channel of every pixel of the copy becomes
`((h + hue_shift) mod 256) mod 255` (uint8 sum, then the numpy `% 255`);
the saturation and value channels are untouched. -/
def shiftFrame (sh : Nat) (a : ImageHSV) : ImageHSV :=
  a.map (List.map (fun p => { p with h := (u8add p.h sh) % 255 }))

/-- Line 53: `Image.fromarray(frame_array, 'HSV').convert('RGB')`, a pixelwise
colorspace conversion applied by the external library; `conv` is its per-pixel
map. -/
def convertImage (conv : PixelHSV → PixelRGB) (a : ImageHSV) : ImageRGB :=
  a.map (List.map conv)

/-- The mutable state of the loop at lines 44-54: the base HSV array
(`hsv_array`) and the accumulated frame list (`gif_frames`). -/
structure LoopState where
  hsv_array : ImageHSV
  gif_frames : List ImageRGB
deriving DecidableEq

/-- One iteration of the loop body (lines 46-54): copy the base array, shift
the hue channel of the copy, convert the copy to RGB and append it.  The
`hsv_array` component is returned unchanged because the code writes only into
the copy `frame_array`. -/
def loopBody (conv : PixelHSV → PixelRGB) (num_frames : Nat)
    (st : LoopState) (i : Nat) : LoopState :=
  let frame_array := shiftFrame (hue_shift num_frames i) st.hsv_array
  let new_img := convertImage conv frame_array
  { st with gif_frames := st.gif_frames ++ [new_img] }

/-- The whole loop `for i in range(num_frames)` at lines 44-54, starting from
the freshly converted base array and an empty `gif_frames` list. -/
def runLoop (conv : PixelHSV → PixelRGB) (base : ImageHSV) (n : Nat) : LoopState :=
  (List.range n).foldl (loopBody conv n) { hsv_array := base, gif_frames := [] }

/-- The HSV frame arrays the loop computes, frame `i` being the base array with
its hue channel shifted by `hue_shift n i`. -/
def framesOf (base : ImageHSV) (n : Nat) : List ImageHSV :=
  (List.range n).map (fun i => shiftFrame (hue_shift n i) base)

/-- The pixel at row `r`, column `c` of a 2-D array, when both are in range. -/
def pixelAt {α : Type} (a : List (List α)) (r c : Nat) : Option α :=
  (a[r]?).bind (fun row => row[c]?)

/-- The spatial shape of a 2-D array: the list of its row lengths (so equal
shapes mean equal height and equal width of every row). -/
def shape {α : Type} (a : List (List α)) : List Nat :=
  a.map List.length

/-- Python `str.lower()` on the characters of a string (ASCII case mapping). -/
def pyLower (s : List Char) : List Char :=
  s.map Char.toLower

/-- Python `str.endswith(suffix)`: the last `suffix.length` characters equal
the suffix. -/
def pyEndsWith (s suffix : List Char) : Bool :=
  s.drop (s.length - suffix.length) == suffix

/-- The characters of the required extension `'.gif'`. -/
def gifExt : List Char := ['.', 'g', 'i', 'f']

/-- Python exception classes the function can raise. -/
inductive ErrClass where
  | fileNotFoundError
  | valueError
  | runtimeError
deriving DecidableEq

/-- A raised Python exception: its class together with its message. -/
inductive PyError where
  | fileNotFoundError (msg : String)
  | valueError (msg : String)
  | runtimeError (msg : String)
deriving DecidableEq

/-- The exception class of a raised error. -/
def PyError.cls : PyError → ErrClass
  | .fileNotFoundError _ => .fileNotFoundError
  | .valueError _ => .valueError
  | .runtimeError _ => .runtimeError

/-- Observable side effects: an attempt to decode the input
(`Image.open`), and an attempt to write the GIF (`gif_frames[0].save`). -/
inductive Event where
  | decodeAttempt
  | saveAttempt
deriving DecidableEq

/-- The arguments the code passes to `gif_frames[0].save(...)` on line 58-64:
the destination path, the first frame, `append_images=gif_frames[1:]`,
`save_all=True`, `loop=0` (0 is the GIF encoder's infinite-loop flag) and
`duration=frame_duration`. -/
structure GifSave where
  path : String
  first : ImageRGB
  append_images : List ImageRGB
  save_all : Bool
  loop : Nat
  duration : Int
deriving DecidableEq

/-- The external collaborators of one call: the filesystem check, the decoder,
the colorspace conversion and the GIF writer. -/
structure Env where
  /-- `os.path.isfile(image_path)`. -/
  inputExists : Bool
  /-- The result of `Image.open` followed by `convert("RGB")`, `convert('HSV')`
  and `np.array(..., dtype=np.uint8)`: either the base HSV array, or the text
  of the exception `Image.open` raised. -/
  decoded : Except String ImageHSV
  /-- The per-pixel HSV→RGB conversion applied by `convert('RGB')`. -/
  conv : PixelHSV → PixelRGB
  /-- Whether `gif_frames[0].save(...)` succeeds, or the text of the exception
  it raised. -/
  saveResult : Except String Unit

/-- Message of the `FileNotFoundError` on line 21. -/
def notFoundMsg (image_path : String) : String :=
  "Input image " ++ image_path ++ " not found."

/-- Message of the `ValueError` on line 23. -/
def extMsg : String := "Output path must have a .gif extension."

/-- Message of the `ValueError` on line 25. -/
def framesMsg : String := "Number of frames must be at least 1."

/-- Message prefix of the `ValueError` on line 31. -/
def decodeMsgPre : String := "Failed to open image: "

/-- Message prefix of the `RuntimeError` on line 66. -/
def saveMsgPre : String := "Failed to save GIF: "

/-- The whole of `cycle_hues` (lines 19-66): the three validation checks in
source order, the guarded decode, the hue-cycling loop, and the guarded save.
Returns the raised exception or the performed save, together with the list of
decode/save attempts actually made. -/
def cycle_hues (env : Env) (image_path output_path : String)
    (num_frames : Int) (frame_duration : Int) :
    Except PyError GifSave × List Event :=
  if env.inputExists = false then
    (.error (.fileNotFoundError (notFoundMsg image_path)), [])
  else if pyEndsWith (pyLower output_path.data) gifExt = false then
    (.error (.valueError extMsg), [])
  else if num_frames < 1 then
    (.error (.valueError framesMsg), [])
  else
    match env.decoded with
    | .error e => (.error (.valueError (decodeMsgPre ++ e)), [.decodeAttempt])
    | .ok hsv_array =>
      let st := runLoop env.conv hsv_array num_frames.toNat
      match st.gif_frames with
      | [] =>
        -- `gif_frames[0]` raising IndexError inside the try of lines 57-66
        (.error (.runtimeError (saveMsgPre ++ "list index out of range")),
         [.decodeAttempt])
      | first :: rest =>
        match env.saveResult with
        | .error e =>
          (.error (.runtimeError (saveMsgPre ++ e)),
           [.decodeAttempt, .saveAttempt])
        | .ok _ =>
          (.ok { path := output_path, first := first, append_images := rest,
                 save_all := true, loop := 0, duration := frame_duration },
           [.decodeAttempt, .saveAttempt])

/-! ### Helper lemmas about the loop, indexing and the extension check -/

/-- The loop starting from the base array and an empty frame list leaves the
base array untouched and accumulates exactly the converted shifted frames,
in index order. -/
lemma foldl_loopBody (conv : PixelHSV → PixelRGB) (nf : Nat) (base : ImageHSV)
    (m : Nat) :
    (List.range m).foldl (loopBody conv nf) { hsv_array := base, gif_frames := [] } =
      { hsv_array := base,
        gif_frames :=
          (List.range m).map
            (fun i => convertImage conv (shiftFrame (hue_shift nf i) base)) } := by
  induction m with
  | zero => rfl
  | succ m ih =>
      rw [List.range_succ, List.foldl_append, ih, List.map_append]
      rfl

/-- `runLoop` in closed form: pristine base, frames = converted `framesOf`. -/
lemma runLoop_eq (conv : PixelHSV → PixelRGB) (base : ImageHSV) (n : Nat) :
    runLoop conv base n =
      { hsv_array := base,
        gif_frames := (framesOf base n).map (convertImage conv) } := by
  unfold runLoop framesOf
  rw [foldl_loopBody, List.map_map]
  rfl

/-- Indexing a pixelwise-mapped 2-D array. -/
lemma pixelAt_map {α β : Type} (f : α → β) (a : List (List α)) (r c : Nat) :
    pixelAt (a.map (List.map f)) r c = (pixelAt a r c).map f := by
  unfold pixelAt
  rw [List.getElem?_map]
  cases a[r]? with
  | none => rfl
  | some row =>
      simp [List.getElem?_map]

/-- The `i`-th element of `framesOf` for `i < n`. -/
lemma framesOf_getD (base : ImageHSV) (n i : Nat) (hi : i < n) :
    (framesOf base n).getD i [] = shiftFrame (hue_shift n i) base := by
  unfold framesOf
  rw [List.getD_eq_getElem?_getD, List.getElem?_map, List.getElem?_range hi]
  rfl

/-- A pixelwise map preserves the spatial shape. -/
lemma shape_map {α β : Type} (f : α → β) (a : List (List α)) :
    shape (a.map (List.map f)) = shape a := by
  unfold shape
  rw [List.map_map]
  simp [Function.comp]

/-- The code's extension test is the suffix relation on the lowercased path. -/
lemma pyEndsWith_iff (s u : List Char) :
    pyEndsWith s u = true ↔ u <:+ s := by
  unfold pyEndsWith
  rw [beq_iff_eq]
  constructor
  · intro h
    exact ⟨s.take (s.length - u.length), by conv_rhs => rw [← List.take_append_drop (s.length - u.length) s, h]⟩
  · rintro ⟨pre, rfl⟩
    have hl : (pre ++ u).length - u.length = pre.length := by
      simp [List.length_append]
    rw [hl, List.drop_left]

/-- The decode-failure message never coincides with the extension-validation
message, whatever the underlying exception text. -/
lemma decodeMsg_ne_extMsg (e : String) : decodeMsgPre ++ e ≠ extMsg := by
  intro h
  have h2 := congrArg String.data h
  rw [String.data_append] at h2
  have h3 := congrArg List.head? h2
  simp [decodeMsgPre, extMsg] at h3

/-! ### Concrete environments and images used by witnesses -/

/-- A concrete per-pixel HSV→RGB conversion (greyscale from the value channel),
standing in for the external library's conversion in witnesses. -/
def convD : PixelHSV → PixelRGB := fun p => ⟨p.v, p.v, p.v⟩

/-- A concrete 1×2 base HSV array. -/
def baseImg : ImageHSV := [[⟨10, 20, 30⟩, ⟨200, 3, 7⟩]]

/-- An environment in which every external collaborator succeeds. -/
def envOk : Env :=
  { inputExists := true, decoded := .ok baseImg, conv := convD, saveResult := .ok () }

/-- The input file does not exist. -/
def envMissing : Env := { envOk with inputExists := false }

/-- The input exists but `Image.open` raises. -/
def envDecodeFail : Env := { envOk with decoded := .error "cannot identify image file" }

/-- The GIF save raises. -/
def envSaveFail : Env := { envOk with saveResult := .error "Permission denied" }

/-! ### Claims -/

/-- C2: for every `num_frames ≥ 1` and frame index `i < num_frames`, the hue
shift equals `floor(255*i/num_frames) mod 255` (integer division before the
modulo), lies in `[0, 255)`, and for fixed `num_frames` is monotonically
non-decreasing in `i`. -/
theorem hue_shift_formula_range_mono (n i : Nat) (hn : 1 ≤ n) (hi : i < n) :
    hue_shift n i = (255 * i / n) % 255 ∧
    hue_shift n i < 255 ∧
    ∀ j, j ≤ i → hue_shift n j ≤ hue_shift n i := by
  have hdiv : ∀ k, k < n → 255 * k / n < 255 := by
    intro k hk
    have hmul : 255 * k < 255 * n := by omega
    exact (Nat.div_lt_iff_lt_mul (by omega)).mpr (by omega)
  refine ⟨rfl, Nat.mod_lt _ (by omega), ?_⟩
  intro j hj
  unfold hue_shift
  rw [Nat.mod_eq_of_lt (hdiv i hi), Nat.mod_eq_of_lt (hdiv j (by omega))]
  exact Nat.div_le_div_right (by omega)

/-- Witness for C2 at `num_frames = 4`, `i = 2`. -/
theorem hue_shift_formula_range_mono_witness :
    (1 ≤ 4 ∧ 2 < 4) ∧
    (hue_shift 4 2 = (255 * 2 / 4) % 255 ∧ hue_shift 4 2 < 255 ∧
      ∀ j, j ≤ 2 → hue_shift 4 j ≤ hue_shift 4 2) :=
  ⟨by decide, hue_shift_formula_range_mono 4 2 (by decide) (by decide)⟩

/-- C3: for every base array and `num_frames ≥ 1`, frame 0's hue shift is 0 and
frame 0's hue channel equals the source hue channel at every pixel (the source
hue being in `[0, 255)`, the range of the 8-bit HSV quantization). -/
theorem frame0_preserves_hue (base : ImageHSV) (n r c : Nat) (p : PixelHSV)
    (hn : 1 ≤ n) (hp : pixelAt base r c = some p) (hh : p.h < 255) :
    hue_shift n 0 = 0 ∧
    pixelAt ((framesOf base n).getD 0 []) r c = some p := by
  have h0 : hue_shift n 0 = 0 := by
    simp [hue_shift]
  refine ⟨h0, ?_⟩
  rw [framesOf_getD base n 0 (by omega)]
  unfold shiftFrame
  rw [pixelAt_map, hp]
  obtain ⟨ph, ps, pv⟩ := p
  have hh2 : ph < 255 := hh
  simp [h0, u8add, PixelHSV.mk.injEq]
  omega

/-- Witness for C3 on the concrete base array, `num_frames = 3`. -/
theorem frame0_preserves_hue_witness :
    (1 ≤ 3 ∧ pixelAt baseImg 0 1 = some ⟨200, 3, 7⟩ ∧ (200 : Nat) < 255) ∧
    (hue_shift 3 0 = 0 ∧
      pixelAt ((framesOf baseImg 3).getD 0 []) 0 1 = some ⟨200, 3, 7⟩) :=
  ⟨by decide, frame0_preserves_hue baseImg 3 0 1 ⟨200, 3, 7⟩ (by decide) (by decide) (by decide)⟩

/-- A one-pixel base array whose hue 200 makes the uint8 sum overflow when the
shift is 127. -/
def cexBase : ImageHSV := [[⟨200, 3, 7⟩]]

/-- C1 counterexample: with base hue 200, `num_frames = 2` and `i = 1`
(shift 127), the code's frame hue is 71 — the uint8 sum 327 wraps modulo 256 to
71 before the `% 255` — whereas the claimed `(hue + shift) mod 255` is 72, so
the frame pixel is not the claimed one. -/
theorem frame_hue_not_mod255_of_sum :
    pixelAt ((framesOf cexBase 2).getD 1 []) 0 0 ≠
      some ⟨(200 + hue_shift 2 1) % 255, 3, 7⟩ ∧
    pixelAt ((framesOf cexBase 2).getD 1 []) 0 0 = some ⟨71, 3, 7⟩ ∧
    (200 + hue_shift 2 1) % 255 = 72 := by decide

/-- C1 (amended): the hue channel of frame `i` equals
`((base_hue + hue_shift) mod 256) mod 255` elementwise — the uint8 sum wraps
modulo 256 before the source's `% 255` is applied — while the saturation and
value channels equal those of the base HSV array. -/
theorem frame_hue_formula (base : ImageHSV) (n i r c : Nat) (p : PixelHSV)
    (hi : i < n) (hp : pixelAt base r c = some p) :
    pixelAt ((framesOf base n).getD i []) r c =
      some ⟨((p.h + hue_shift n i) % 256) % 255, p.s, p.v⟩ := by
  rw [framesOf_getD base n i hi]
  unfold shiftFrame
  rw [pixelAt_map, hp]
  rfl

/-- Witness for C1 (amended) at the concrete overflowing pixel. -/
theorem frame_hue_formula_witness :
    (1 < 2 ∧ pixelAt cexBase 0 0 = some ⟨200, 3, 7⟩) ∧
    pixelAt ((framesOf cexBase 2).getD 1 []) 0 0 =
      some ⟨((200 + hue_shift 2 1) % 256) % 255, 3, 7⟩ :=
  ⟨by decide, frame_hue_formula cexBase 2 1 0 0 ⟨200, 3, 7⟩ (by decide) (by decide)⟩

/-- C9: the loop never mutates the base HSV array — after producing all frames
the state's `hsv_array` is still the original conversion result — and every
accumulated frame is derived from that same pristine array, frame `i` being the
conversion of the base shifted by `hue_shift n i` (not of a previously shifted
frame). -/
theorem base_array_never_mutated (conv : PixelHSV → PixelRGB) (base : ImageHSV) (n : Nat) :
    (runLoop conv base n).hsv_array = base ∧
    (runLoop conv base n).gif_frames =
      (List.range n).map (fun i => convertImage conv (shiftFrame (hue_shift n i) base)) := by
  rw [runLoop_eq]
  refine ⟨rfl, ?_⟩
  unfold framesOf
  rw [List.map_map]
  rfl

/-- C5: a missing input raises `FileNotFoundError` (NotFound class), an output
path that fails the extension test raises the extension `ValueError`
(Validation class), and `num_frames < 1` raises the frame-count `ValueError`
(Validation class) — in every case with an empty event list, i.e. before any
decoding attempt. -/
theorem validation_errors_before_decode (env : Env) (p q : String) (nf d : Int) :
    (env.inputExists = false →
      cycle_hues env p q nf d = (.error (.fileNotFoundError (notFoundMsg p)), [])) ∧
    (env.inputExists = true → pyEndsWith (pyLower q.data) gifExt = false →
      cycle_hues env p q nf d = (.error (.valueError extMsg), [])) ∧
    (env.inputExists = true → pyEndsWith (pyLower q.data) gifExt = true → nf < 1 →
      cycle_hues env p q nf d = (.error (.valueError framesMsg), [])) := by
  refine ⟨?_, ?_, ?_⟩
  · intro h1
    simp [cycle_hues, h1]
  · intro h1 h2
    simp [cycle_hues, h1, h2]
  · intro h1 h2 h3
    simp [cycle_hues, h1, h2, h3]

/-- Witness for C5: the three validation failures at concrete inputs. -/
theorem validation_errors_before_decode_witness :
    cycle_hues envMissing "tone.png" "tone.gif" 15 100 =
      (.error (.fileNotFoundError (notFoundMsg "tone.png")), []) ∧
    cycle_hues envOk "tone.png" "tone.txt" 15 100 =
      (.error (.valueError extMsg), []) ∧
    cycle_hues envOk "tone.png" "tone.gif" 0 100 =
      (.error (.valueError framesMsg), []) :=
  ⟨(validation_errors_before_decode envMissing "tone.png" "tone.gif" 15 100).1 rfl,
   (validation_errors_before_decode envOk "tone.png" "tone.txt" 15 100).2.1 rfl (by decide),
   (validation_errors_before_decode envOk "tone.png" "tone.gif" 0 100).2.2 rfl (by decide) (by decide)⟩

/-- C4 counterexample: at a concrete decode failure the raised error is a
`ValueError` — the very same exception class as the wrong-extension validation
failure — so the decode error class is not distinct from the class used for
input-validation failures. -/
theorem decode_error_class_not_distinct :
    (cycle_hues envDecodeFail "a.png" "out.gif" 3 100).1 =
      .error (.valueError (decodeMsgPre ++ "cannot identify image file")) ∧
    (cycle_hues envOk "a.png" "out.txt" 3 100).1 = .error (.valueError extMsg) ∧
    (PyError.valueError (decodeMsgPre ++ "cannot identify image file")).cls =
      (PyError.valueError extMsg).cls := by
  refine ⟨?_, ?_, rfl⟩
  · rfl
  · rfl

/-- C4 (amended): whenever the input exists, validation passes, and the input
cannot be decoded, `cycle_hues` fails with a `ValueError` carrying the
Failed-to-open message — the same exception class as the input-validation
failures, distinguishable from them only by its message, not by its class. -/
theorem decode_failure_raises_valueError (env : Env) (p q : String) (nf d : Int)
    (e : String)
    (h1 : env.inputExists = true) (h2 : pyEndsWith (pyLower q.data) gifExt = true)
    (h3 : 1 ≤ nf) (h4 : env.decoded = .error e) :
    cycle_hues env p q nf d =
      (.error (.valueError (decodeMsgPre ++ e)), [.decodeAttempt]) ∧
    (PyError.valueError (decodeMsgPre ++ e)).cls = (PyError.valueError extMsg).cls := by
  have hlt : ¬ nf < 1 := by omega
  refine ⟨?_, rfl⟩
  simp [cycle_hues, h1, h2, h4, hlt]

/-- Witness for C4 (amended) at a concrete decode failure. -/
theorem decode_failure_raises_valueError_witness :
    cycle_hues envDecodeFail "a.png" "out.gif" 3 100 =
      (.error (.valueError (decodeMsgPre ++ "cannot identify image file")),
       [.decodeAttempt]) ∧
    (PyError.valueError (decodeMsgPre ++ "cannot identify image file")).cls =
      (PyError.valueError extMsg).cls :=
  decode_failure_raises_valueError envDecodeFail "a.png" "out.gif" 3 100
    "cannot identify image file" rfl (by decide) (by decide) rfl

/-- C8: whenever validation passes, decoding succeeds, but the save call
raises, `cycle_hues` fails with a `RuntimeError` carrying the Failed-to-save
message (the Encode error class, distinct from the classes of the NotFound and
Validation failures). -/
theorem save_failure_raises_runtimeError (env : Env) (p q : String) (nf d : Int)
    (base : ImageHSV) (e : String)
    (h1 : env.inputExists = true) (h2 : pyEndsWith (pyLower q.data) gifExt = true)
    (h3 : 1 ≤ nf) (h4 : env.decoded = .ok base) (h5 : env.saveResult = .error e) :
    cycle_hues env p q nf d =
      (.error (.runtimeError (saveMsgPre ++ e)), [.decodeAttempt, .saveAttempt]) ∧
    (PyError.runtimeError (saveMsgPre ++ e)).cls ≠ ErrClass.valueError ∧
    (PyError.runtimeError (saveMsgPre ++ e)).cls ≠ ErrClass.fileNotFoundError := by
  have hlt : ¬ nf < 1 := by omega
  obtain ⟨k, hk⟩ : ∃ k, nf.toNat = k + 1 := ⟨nf.toNat - 1, by omega⟩
  refine ⟨?_, by simp [PyError.cls], by simp [PyError.cls]⟩
  simp [cycle_hues, h1, h2, h4, h5, hlt, runLoop_eq, framesOf, hk,
        List.range_succ_eq_map]

/-- Witness for C8 at a concrete unwritable destination. -/
theorem save_failure_raises_runtimeError_witness :
    cycle_hues envSaveFail "a.png" "out.gif" 2 100 =
      (.error (.runtimeError (saveMsgPre ++ "Permission denied")),
       [.decodeAttempt, .saveAttempt]) ∧
    (PyError.runtimeError (saveMsgPre ++ "Permission denied")).cls ≠ ErrClass.valueError ∧
    (PyError.runtimeError (saveMsgPre ++ "Permission denied")).cls ≠ ErrClass.fileNotFoundError :=
  save_failure_raises_runtimeError envSaveFail "a.png" "out.gif" 2 100 baseImg
    "Permission denied" rfl (by decide) (by decide) rfl rfl

/-- Inversion of a successful run: success implies `num_frames ≥ 1`, and the
saved GIF targets the given path with `save_all=True`, `loop=0`,
`duration=frame_duration`, its frame list (first frame followed by
`append_images`) being exactly the converted shifted frames in index order. -/
lemma cycle_hues_ok_inv (env : Env) (p q : String) (nf d : Int)
    (base : ImageHSV) (g : GifSave) (tr : List Event)
    (hbase : env.decoded = .ok base)
    (hok : cycle_hues env p q nf d = (.ok g, tr)) :
    1 ≤ nf ∧ g.path = q ∧ g.save_all = true ∧ g.loop = 0 ∧ g.duration = d ∧
    g.first :: g.append_images =
      (framesOf base nf.toNat).map (convertImage env.conv) := by
  by_cases h1 : env.inputExists = false
  · simp [cycle_hues, h1] at hok
  by_cases h2 : pyEndsWith (pyLower q.data) gifExt = false
  · simp [cycle_hues, h1, h2] at hok
  by_cases h3 : nf < 1
  · simp [cycle_hues, h1, h2, h3] at hok
  have hlen : ((framesOf base nf.toNat).map (convertImage env.conv)).length = nf.toNat := by
    simp [framesOf]
  cases hL : (framesOf base nf.toNat).map (convertImage env.conv) with
  | nil =>
      rw [hL] at hlen
      simp at hlen
      omega
  | cons f0 frest =>
      cases hs : env.saveResult with
      | error e =>
          simp [cycle_hues, h1, h2, h3, hbase, hs, runLoop_eq, hL] at hok
      | ok u =>
          simp [cycle_hues, h1, h2, h3, hbase, hs, runLoop_eq, hL] at hok
          obtain ⟨hg, -⟩ := hok
          refine ⟨by omega, ?_, ?_, ?_, ?_, ?_⟩ <;> rw [← hg]

/-- C6: for every `num_frames ≥ 1` on which `cycle_hues` succeeds, the saved
sequence contains exactly `num_frames` frames, and every frame's spatial
dimensions equal the source image's dimensions. -/
theorem output_frame_count_and_dims (env : Env) (p q : String) (nf d : Int)
    (base : ImageHSV) (g : GifSave) (tr : List Event)
    (hbase : env.decoded = .ok base)
    (hok : cycle_hues env p q nf d = (.ok g, tr)) :
    ((g.first :: g.append_images).length : Int) = nf ∧
    ∀ f ∈ g.first :: g.append_images, shape f = shape base := by
  obtain ⟨hnf, -, -, -, -, hframes⟩ :=
    cycle_hues_ok_inv env p q nf d base g tr hbase hok
  constructor
  · rw [hframes]
    simp [framesOf]
    omega
  · intro f hf
    rw [hframes] at hf
    simp [framesOf] at hf
    obtain ⟨i, hi, rfl⟩ := hf
    unfold convertImage shiftFrame
    rw [shape_map, shape_map]

/-- C7: on success the frame sequence is handed to the encoder as a looping
animated image: `loop = 0` (the infinite-loop flag), `save_all = true`, a
uniform per-frame duration equal to `frame_duration`, and the frame order
equal to computation order with frame index 0 first. -/
theorem gif_saved_as_infinite_loop (env : Env) (p q : String) (nf d : Int)
    (base : ImageHSV) (g : GifSave) (tr : List Event)
    (hbase : env.decoded = .ok base)
    (hok : cycle_hues env p q nf d = (.ok g, tr)) :
    g.loop = 0 ∧ g.save_all = true ∧ g.duration = d ∧
    g.first :: g.append_images =
      (List.range nf.toNat).map
        (fun i => convertImage env.conv (shiftFrame (hue_shift nf.toNat i) base)) := by
  obtain ⟨-, -, hsa, hloop, hdur, hframes⟩ :=
    cycle_hues_ok_inv env p q nf d base g tr hbase hok
  refine ⟨hloop, hsa, hdur, ?_⟩
  rw [hframes]
  unfold framesOf
  rw [List.map_map]
  rfl

/-- The GIF written by `envOk` at two frames. -/
def gifOut : GifSave :=
  { path := "out.gif",
    first := [[⟨30, 30, 30⟩, ⟨7, 7, 7⟩]],
    append_images := [[[⟨30, 30, 30⟩, ⟨7, 7, 7⟩]]],
    save_all := true, loop := 0, duration := 100 }

/-- Witness for C6 on a concrete successful run with two frames. -/
theorem output_frame_count_and_dims_witness :
    ((gifOut.first :: gifOut.append_images).length : Int) = 2 ∧
    ∀ f ∈ gifOut.first :: gifOut.append_images, shape f = shape baseImg :=
  output_frame_count_and_dims envOk "a.png" "out.gif" 2 100 baseImg gifOut
    [.decodeAttempt, .saveAttempt] rfl rfl

/-- Witness for C7 on the same concrete successful run. -/
theorem gif_saved_as_infinite_loop_witness :
    gifOut.loop = 0 ∧ gifOut.save_all = true ∧ gifOut.duration = 100 ∧
    gifOut.first :: gifOut.append_images =
      (List.range (2 : Int).toNat).map
        (fun i => convertImage envOk.conv
          (shiftFrame (hue_shift (2 : Int).toNat i) baseImg)) :=
  gif_saved_as_infinite_loop envOk "a.png" "out.gif" 2 100 baseImg gifOut
    [.decodeAttempt, .saveAttempt] rfl rfl

/-- C10: given the input file exists, `cycle_hues` raises the output-path
validation `ValueError` exactly when the lowercased output path does not end in
`.gif` — so the check accepts precisely the paths ending case-insensitively in
`.gif` (e.g. `out.GIF`) and no other extension. -/
theorem extension_check_exact (env : Env) (p q : String) (nf d : Int)
    (hin : env.inputExists = true) :
    (cycle_hues env p q nf d).1 = .error (.valueError extMsg) ↔
      ¬ gifExt <:+ pyLower q.data := by
  rw [← pyEndsWith_iff]
  constructor
  · intro h hend
    by_cases h3 : nf < 1
    · have hres : (cycle_hues env p q nf d).1 = .error (.valueError framesMsg) := by
        simp [cycle_hues, hin, hend, h3]
      rw [hres] at h
      simp only [Except.error.injEq, PyError.valueError.injEq] at h
      exact absurd h (by decide)
    · cases hdec : env.decoded with
      | error e =>
          have hres : (cycle_hues env p q nf d).1 =
              .error (.valueError (decodeMsgPre ++ e)) := by
            simp [cycle_hues, hin, hend, h3, hdec]
          rw [hres] at h
          simp only [Except.error.injEq, PyError.valueError.injEq] at h
          exact decodeMsg_ne_extMsg e h
      | ok base =>
          cases hL : (framesOf base nf.toNat).map (convertImage env.conv) with
          | nil =>
              have hres : (cycle_hues env p q nf d).1 =
                  .error (.runtimeError (saveMsgPre ++ "list index out of range")) := by
                simp [cycle_hues, hin, hend, h3, hdec, runLoop_eq, hL]
              rw [hres] at h
              simp at h
          | cons f0 frest =>
              cases hs : env.saveResult with
              | error e =>
                  have hres : (cycle_hues env p q nf d).1 =
                      .error (.runtimeError (saveMsgPre ++ e)) := by
                    simp [cycle_hues, hin, hend, h3, hdec, hs, runLoop_eq, hL]
                  rw [hres] at h
                  simp at h
              | ok u =>
                  have hres : (cycle_hues env p q nf d).1 =
                      .ok { path := q, first := f0, append_images := frest,
                            save_all := true, loop := 0, duration := d } := by
                    simp [cycle_hues, hin, hend, h3, hdec, hs, runLoop_eq, hL]
                  rw [hres] at h
                  simp at h
  · intro hend
    have hend2 : pyEndsWith (pyLower q.data) gifExt = false := by
      revert hend
      cases pyEndsWith (pyLower q.data) gifExt <;> simp
    simp [cycle_hues, hin, hend2]

/-- Witness for C10: a rejected `.txt` path and an accepted `.GIF` path. -/
theorem extension_check_exact_witness :
    ((cycle_hues envOk "a.png" "out.txt" 3 100).1 = .error (.valueError extMsg) ↔
      ¬ gifExt <:+ pyLower "out.txt".data) ∧
    ((cycle_hues envOk "a.png" "out.GIF" 3 100).1 = .error (.valueError extMsg) ↔
      ¬ gifExt <:+ pyLower "out.GIF".data) :=
  ⟨extension_check_exact envOk "a.png" "out.txt" 3 100 rfl,
   extension_check_exact envOk "a.png" "out.GIF" 3 100 rfl⟩

end Hues
